import Mathlib

/-!
Verification of the AI placement-predictor application.

This file gives a shallow embedding, in Lean 4, of the algorithmic parts of
the placement-prediction web application: the Python value/dictionary model,
the Power-BI-style analytics score functions (powerbi_analytics.py), the
generative-AI glue with its hard-coded fallbacks (ai_utils.py), the document
database helper (firebase_helper.py), and the employability-prediction
pipeline (ml_model.py).  Machine reals are modelled by the rationals, with
the degenerate NaN produced by a zero-width min-max normalisation modelled
explicitly by an Option.  Theorems about the embedding follow the
definitions.
-/

namespace App

/-- A Python value as stored in the student dictionaries: a number (int and
float are unified as a rational), a string, a list, or a nested dictionary. -/
inductive PyVal where
  | num (q : ℚ)
  | str (s : String)
  | list (l : List PyVal)
  | dict (d : List (String × PyVal))

/-- A Python dictionary with string keys, as an association list.  Python
dictionaries have unique keys, so lookup takes the first binding. -/
abbrev Dict := List (String × PyVal)

/-- Association-list lookup; first binding wins, like a Python dict. -/
def alistGet {α : Type} : List (String × α) → String → Option α
  | [], _ => none
  | (k1, v) :: rest, k => if k1 = k then some v else alistGet rest k

/-- Model of `d.get(k, dflt)` for a numeric field.  On a well-typed dictionary this
agrees with the Python expression; a non-numeric binding would make the
surrounding Python arithmetic raise, and is excluded by `wellTypedStudent`
in the theorems below. -/
def getNum (d : Dict) (k : String) (dflt : ℚ) : ℚ :=
  match alistGet d k with
  | some (PyVal.num q) => q
  | _ => dflt

/-- Model of `d.get(k, dflt)` for a string field. -/
def getStr (d : Dict) (k : String) (dflt : String) : String :=
  match alistGet d k with
  | some (PyVal.str s) => s
  | _ => dflt

/-- Model of `d.get(k, [])` for a list field. -/
def getList (d : Dict) (k : String) (dflt : List PyVal) : List PyVal :=
  match alistGet d k with
  | some (PyVal.list l) => l
  | _ => dflt

/-- The binding of `k` in `d`, when present, satisfies the shape check. -/
def keyTyped (d : Dict) (k : String) (check : PyVal → Bool) : Bool :=
  match alistGet d k with
  | none => true
  | some v => check v

/-- The field shapes assumed by the application for a student dictionary:
numeric cgpa, internships, projects and communication, a list of
certifications, and a string year.  The Python code would raise a TypeError
on other shapes, so the theorems restrict to dictionaries passing this
check. -/
def wellTypedStudent (d : Dict) : Bool :=
  keyTyped d "cgpa" (fun v => match v with | PyVal.num _ => true | _ => false) &&
  keyTyped d "internships" (fun v => match v with | PyVal.num _ => true | _ => false) &&
  keyTyped d "projects" (fun v => match v with | PyVal.num _ => true | _ => false) &&
  keyTyped d "communication" (fun v => match v with | PyVal.num _ => true | _ => false) &&
  keyTyped d "certifications" (fun v => match v with | PyVal.list _ => true | _ => false) &&
  keyTyped d "year" (fun v => match v with | PyVal.str _ => true | _ => false)

/-- Python `int(q)`: truncation toward zero.  For nonnegative `q` this is the
floor; for negative `q` it is `-⌊-q⌋`. -/
def pyInt (q : ℚ) : ℤ :=
  if 0 ≤ q then ⌊q⌋ else -⌊-q⌋

/-- The year bonus dictionary of `calculate_employability_score`:
`{'1st Year': 5, '2nd Year': 8, '3rd Year': 12, '4th Year': 15}.get(year, 5)`. -/
def yearBonus (y : String) : ℚ :=
  if y = "1st Year" then 5
  else if y = "2nd Year" then 8
  else if y = "3rd Year" then 12
  else if y = "4th Year" then 15
  else 5

/-- The accumulated `score` of `PowerBIAnalytics.calculate_employability_score`
before the final `min(100, int(score))`. -/
def employabilityRawSum (d : Dict) : ℚ :=
  min 25 (getNum d "cgpa" 0 / 10 * 25)
  + min 20 (getNum d "internships" 0 * 5)
  + min 15 (getNum d "projects" 0 * 3)
  + min 15 (((getList d "certifications" []).length : ℚ) * 3)
  + min 10 (getNum d "communication" 0)
  + min 15 (yearBonus (getStr d "year" "1st Year"))

/-- Model of `PowerBIAnalytics.calculate_employability_score`: 0 for an empty
dictionary, otherwise `min(100, int(score))` for the accumulated capped
factor sum. -/
def calculate_employability_score (d : Dict) : ℤ :=
  if d.isEmpty then 0 else min 100 (pyInt (employabilityRawSum d))

/-- Model of `PowerBIAnalytics.calculate_skill_gap`: `max(0, 80 - employability)`.
The quiz-results argument is accepted and ignored, as in the source. -/
def calculate_skill_gap (d : Dict) (quizResults : List Dict) : ℤ :=
  max 0 (80 - calculate_employability_score d)

/-- The claim's own description of the factor sum: capped contributions plus
the uncapped year bonus (the code additionally wraps the year bonus in
`min 15`, which is a no-op since the bonus is at most 15). -/
def specCappedFactorSum (d : Dict) : ℚ :=
  min 25 (getNum d "cgpa" 0 / 10 * 25)
  + min 20 (getNum d "internships" 0 * 5)
  + min 15 (getNum d "projects" 0 * 3)
  + min 15 (((getList d "certifications" []).length : ℚ) * 3)
  + min 10 (getNum d "communication" 0)
  + yearBonus (getStr d "year" "1st Year")

theorem yearBonus_bounds (y : String) : 5 ≤ yearBonus y ∧ yearBonus y ≤ 15 := by
  unfold yearBonus
  split <;> norm_num
  split <;> norm_num
  split <;> norm_num
  split <;> norm_num

theorem pyInt_of_nonneg {q : ℚ} (h : 0 ≤ q) : pyInt q = ⌊q⌋ := by
  simp [pyInt, h]

theorem rawSum_nonneg (d : Dict)
    (h1 : 0 ≤ getNum d "cgpa" 0) (h2 : 0 ≤ getNum d "internships" 0)
    (h3 : 0 ≤ getNum d "projects" 0) (h4 : 0 ≤ getNum d "communication" 0) :
    0 ≤ employabilityRawSum d := by
  unfold employabilityRawSum
  have t1 : (0:ℚ) ≤ min 25 (getNum d "cgpa" 0 / 10 * 25) :=
    le_min (by norm_num) (mul_nonneg (div_nonneg h1 (by norm_num)) (by norm_num))
  have t2 : (0:ℚ) ≤ min 20 (getNum d "internships" 0 * 5) :=
    le_min (by norm_num) (mul_nonneg h2 (by norm_num))
  have t3 : (0:ℚ) ≤ min 15 (getNum d "projects" 0 * 3) :=
    le_min (by norm_num) (mul_nonneg h3 (by norm_num))
  have t4 : (0:ℚ) ≤ min 15 (((getList d "certifications" []).length : ℚ) * 3) :=
    le_min (by norm_num) (mul_nonneg (Nat.cast_nonneg _) (by norm_num))
  have t5 : (0:ℚ) ≤ min 10 (getNum d "communication" 0) :=
    le_min (by norm_num) h4
  have t6 : (0:ℚ) ≤ min 15 (yearBonus (getStr d "year" "1st Year")) :=
    le_min (by norm_num) (le_trans (by norm_num) (yearBonus_bounds _).1)
  linarith

theorem score_nonneg (d : Dict)
    (h1 : 0 ≤ getNum d "cgpa" 0) (h2 : 0 ≤ getNum d "internships" 0)
    (h3 : 0 ≤ getNum d "projects" 0) (h4 : 0 ≤ getNum d "communication" 0) :
    0 ≤ calculate_employability_score d := by
  have hsum := rawSum_nonneg d h1 h2 h3 h4
  cases d with
  | nil => simp [calculate_employability_score]
  | cons x xs =>
    have hc : calculate_employability_score (x :: xs)
        = min 100 (pyInt (employabilityRawSum (x :: xs))) := by
      simp [calculate_employability_score]
    rw [hc, pyInt_of_nonneg hsum]
    exact le_min (by norm_num) (Int.floor_nonneg.mpr hsum)

theorem score_le_100 (d : Dict) : calculate_employability_score d ≤ 100 := by
  cases d with
  | nil => simp [calculate_employability_score]
  | cons x xs =>
    have hc : calculate_employability_score (x :: xs)
        = min 100 (pyInt (employabilityRawSum (x :: xs))) := by
      simp [calculate_employability_score]
    rw [hc]
    exact min_le_left _ _

/-- C5: for a well-typed student dictionary whose numeric fields are
nonnegative, `calculate_employability_score` returns 0 on the empty
dictionary and otherwise an integer in [0, 100] equal to
`min(100, ⌊sum of the capped factor contributions⌋)` as the claim words it.
The nonnegativity hypotheses are needed: on a dictionary with a negative
cgpa the function returns a negative score, see the counterexample. -/
theorem c5_employability_score_amended (d : Dict)
    (hw : wellTypedStudent d = true)
    (h1 : 0 ≤ getNum d "cgpa" 0) (h2 : 0 ≤ getNum d "internships" 0)
    (h3 : 0 ≤ getNum d "projects" 0) (h4 : 0 ≤ getNum d "communication" 0) :
    (d = [] → calculate_employability_score d = 0) ∧
    0 ≤ calculate_employability_score d ∧
    calculate_employability_score d ≤ 100 ∧
    (d ≠ [] → calculate_employability_score d = min 100 ⌊specCappedFactorSum d⌋) := by
  have hsum := rawSum_nonneg d h1 h2 h3 h4
  have hspec : employabilityRawSum d = specCappedFactorSum d := by
    unfold employabilityRawSum specCappedFactorSum
    rw [min_eq_right (yearBonus_bounds (getStr d "year" "1st Year")).2]
  refine ⟨?_, score_nonneg d h1 h2 h3 h4, score_le_100 d, ?_⟩
  · intro hd; subst hd; rfl
  · intro hd
    cases d with
    | nil => exact absurd rfl hd
    | cons x xs =>
      have hc : calculate_employability_score (x :: xs)
          = min 100 (pyInt (employabilityRawSum (x :: xs))) := by
        simp [calculate_employability_score]
      rw [hc, pyInt_of_nonneg hsum, hspec]

/-- Witness for C5 at a concrete student dictionary. -/
theorem c5_employability_score_amended_witness :
    let dW : Dict := [("cgpa", PyVal.num 8), ("internships", PyVal.num 2),
      ("certifications", PyVal.list [PyVal.str "Python"]), ("year", PyVal.str "3rd Year")]
    (dW = [] → calculate_employability_score dW = 0) ∧
    0 ≤ calculate_employability_score dW ∧
    calculate_employability_score dW ≤ 100 ∧
    (dW ≠ [] → calculate_employability_score dW = min 100 ⌊specCappedFactorSum dW⌋) :=
  c5_employability_score_amended _ (by decide) (by decide) (by decide) (by decide) (by decide)

/-- Counterexample for C5 as frozen: on the well-typed, nonempty dictionary
with cgpa -1000 the function returns -2495, which is not in [0, 100]. -/
theorem c5_counterexample :
    ¬ (0 ≤ calculate_employability_score [("cgpa", PyVal.num (-1000))] ∧
       calculate_employability_score [("cgpa", PyVal.num (-1000))] ≤ 100) := by
  have hraw : employabilityRawSum [("cgpa", PyVal.num (-1000))]
      = min 25 ((-1000 : ℚ) / 10 * 25) + min 20 ((0:ℚ) * 5) + min 15 ((0:ℚ) * 3)
        + min 15 (((0:ℕ) : ℚ) * 3) + min 10 (0:ℚ) + min 15 (yearBonus "1st Year") := rfl
  have hyb : yearBonus "1st Year" = 5 := rfl
  have hval : employabilityRawSum [("cgpa", PyVal.num (-1000))] = -2495 := by
    rw [hraw, hyb]
    norm_num [min_def]
  have hscore : calculate_employability_score [("cgpa", PyVal.num (-1000))]
      = min 100 (pyInt (employabilityRawSum [("cgpa", PyVal.num (-1000))])) := rfl
  rw [hscore, hval]
  norm_num [pyInt]

/-- C6 (amended): for every student dictionary and quiz lists, the skill
gap is `max(0, 80 - employability)`, independent of the quiz results,
antitone in the employability score, and zero exactly when the
employability score is at least 80; it lies in [0, 80] for well-typed
student dictionaries with nonnegative numeric fields.  Without the
nonnegativity proviso the gap can exceed 80, see the counterexample. -/
theorem c6_skill_gap_amended (d : Dict) (q1 q2 : List Dict) :
    calculate_skill_gap d q1 = max 0 (80 - calculate_employability_score d) ∧
    calculate_skill_gap d q1 = calculate_skill_gap d q2 ∧
    (calculate_skill_gap d q1 = 0 ↔ 80 ≤ calculate_employability_score d) ∧
    (∀ d2 q3, calculate_employability_score d ≤ calculate_employability_score d2 →
      calculate_skill_gap d2 q3 ≤ calculate_skill_gap d q1) ∧
    (wellTypedStudent d = true →
     0 ≤ getNum d "cgpa" 0 → 0 ≤ getNum d "internships" 0 →
     0 ≤ getNum d "projects" 0 → 0 ≤ getNum d "communication" 0 →
      0 ≤ calculate_skill_gap d q1 ∧ calculate_skill_gap d q1 ≤ 80) := by
  unfold calculate_skill_gap
  refine ⟨rfl, rfl, by omega, ?_, ?_⟩
  · intro d2 q3 hle
    omega
  · intro hw h1 h2 h3 h4
    have hnn : 0 ≤ calculate_employability_score d := score_nonneg d h1 h2 h3 h4
    omega

/-- Witness for C6 at a concrete student dictionary and quiz lists, with
the nonnegativity proviso of the range conjunct discharged. -/
theorem c6_skill_gap_amended_witness :
    let dW : Dict := [("cgpa", PyVal.num 7), ("projects", PyVal.num 3),
      ("communication", PyVal.num 6), ("year", PyVal.str "2nd Year")]
    calculate_skill_gap dW [] = max 0 (80 - calculate_employability_score dW) ∧
    calculate_skill_gap dW [] = calculate_skill_gap dW [[("score", PyVal.num 5)]] ∧
    (calculate_skill_gap dW [] = 0 ↔ 80 ≤ calculate_employability_score dW) ∧
    (∀ d2 q3, calculate_employability_score dW ≤ calculate_employability_score d2 →
      calculate_skill_gap d2 q3 ≤ calculate_skill_gap dW []) ∧
    (0 ≤ calculate_skill_gap dW [] ∧ calculate_skill_gap dW [] ≤ 80) :=
  ⟨(c6_skill_gap_amended _ _ [[("score", PyVal.num 5)]]).1,
   (c6_skill_gap_amended _ _ [[("score", PyVal.num 5)]]).2.1,
   (c6_skill_gap_amended _ _ [[("score", PyVal.num 5)]]).2.2.1,
   (c6_skill_gap_amended _ _ [[("score", PyVal.num 5)]]).2.2.2.1,
   (c6_skill_gap_amended _ _ [[("score", PyVal.num 5)]]).2.2.2.2
     (by decide) (by decide) (by decide) (by decide) (by decide)⟩

/-- Counterexample for C6 as frozen: with a well-typed dictionary holding a
communication rating of -1000, the skill gap is 1075, outside [0, 80]. -/
theorem c6_counterexample :
    ¬ (calculate_skill_gap [("communication", PyVal.num (-1000))] [] ≤ 80) := by
  have hraw : employabilityRawSum [("communication", PyVal.num (-1000))]
      = min 25 ((0 : ℚ) / 10 * 25) + min 20 ((0:ℚ) * 5) + min 15 ((0:ℚ) * 3)
        + min 15 (((0:ℕ) : ℚ) * 3) + min 10 (-1000 : ℚ) + min 15 (yearBonus "1st Year") := rfl
  have hyb : yearBonus "1st Year" = 5 := rfl
  have hval : employabilityRawSum [("communication", PyVal.num (-1000))] = -995 := by
    rw [hraw, hyb]
    norm_num [min_def]
  have hscore : calculate_employability_score [("communication", PyVal.num (-1000))]
      = min 100 (pyInt (employabilityRawSum [("communication", PyVal.num (-1000))])) := rfl
  have hgap : calculate_skill_gap [("communication", PyVal.num (-1000))] []
      = max 0 (80 - calculate_employability_score [("communication", PyVal.num (-1000))]) := rfl
  rw [hgap, hscore, hval]
  norm_num [pyInt]

/-- A Python exception, as far as the embedded functions can raise one. -/
inductive PyErr where
  | valueError
  | zeroDivision

/-- The observable behaviour of one pass through the Gemini helpers:
`get_gemini_status()` is false (`unavailable`), `get_best_model()` returns
no model (`noModel`), `safe_generate_content` returns None after its
retries (`failed`), or the call succeeds with the given response text. -/
inductive ApiCall where
  | unavailable
  | noModel
  | failed
  | success (text : String)

/-- True when the generative-AI API is unavailable or its call fails. -/
def apiDown : ApiCall → Bool
  | ApiCall.unavailable => true
  | ApiCall.noModel => true
  | ApiCall.failed => true
  | ApiCall.success _ => false

/-- One quiz question dictionary, with the keys required by the validator. -/
structure QuizQ where
  question : String
  options : List String
  answer : String
  explanation : String

/-- The five hard-coded questions of `get_fallback_questions`. -/
def fallbackQuestions : List QuizQ :=
  [{ question := "Which data structure follows LIFO (Last-In-First-Out) principle?",
     options := ["A) Queue", "B) Stack", "C) Array", "D) Linked List"],
     answer := "B",
     explanation := "Stack follows LIFO principle where the last element added is the first one removed." },
   { question := "What is the time complexity of binary search algorithm?",
     options := ["A) O(n)", "B) O(log n)", "C) O(n²)", "D) O(1)"],
     answer := "B",
     explanation := "Binary search has O(log n) time complexity as it halves the search space each iteration." },
   { question := "Which programming language is primarily used for machine learning and data science?",
     options := ["A) Java", "B) Python", "C) C++", "D) HTML"],
     answer := "B",
     explanation := "Python is widely used in machine learning due to its extensive libraries like TensorFlow, PyTorch, and scikit-learn." },
   { question := "What does SQL stand for in database management?",
     options := ["A) Structured Query Language", "B) Simple Question Language", "C) System Query Logic", "D) Standard Question Format"],
     answer := "A",
     explanation := "SQL stands for Structured Query Language, used for managing and manipulating relational databases." },
   { question := "Which protocol is used for secure web communication (HTTPS)?",
     options := ["A) HTTP", "B) FTP", "C) HTTPS", "D) SMTP"],
     answer := "C",
     explanation := "HTTPS (HyperText Transfer Protocol Secure) encrypts communication between web browsers and servers." }]

/-- Python list slicing `l[:n]`: first `n` elements for nonnegative `n`, all
but the last `-n` elements for negative `n`. -/
def pySlice {α : Type} (n : ℤ) (l : List α) : List α :=
  if 0 ≤ n then l.take n.toNat else l.take (l.length - (-n).toNat)

/-- Model of `generate_quiz_for_subject`: on an unavailable API, a missing model, or
a failed generation call the fallback questions are returned, sliced to
`num_questions`.  On success the response is parsed and validated;
that JSON machinery is abstracted into the `parse` argument (the subject
only enters the prompt text). -/
def generate_quiz_for_subject (parse : String → List QuizQ) (api : ApiCall)
    (subject : String) (numQuestions : ℤ) : List QuizQ :=
  match api with
  | ApiCall.unavailable => pySlice numQuestions fallbackQuestions
  | ApiCall.noModel => pySlice numQuestions fallbackQuestions
  | ApiCall.failed => pySlice numQuestions fallbackQuestions
  | ApiCall.success t => parse t

/-- The three hard-coded markdown templates of `get_fallback_feedback`,
abstracted into one constructor per template; the fields carry the values
interpolated into the template text. -/
inductive FeedbackTemplate where
  | outstanding (subject : String) (score total : ℤ) (percentage : ℚ)
  | solid (subject : String) (score total : ℤ) (percentage : ℚ)
  | learning (subject : String) (score total : ℤ) (percentage : ℚ)

/-- Model of `get_fallback_feedback`: computes `percentage = score / total * 100`
(raising ZeroDivisionError when `total = 0`) and selects the template with
thresholds 80 and 60. -/
def get_fallback_feedback (subject : String) (score total : ℤ) :
    Except PyErr FeedbackTemplate :=
  if total = 0 then Except.error PyErr.zeroDivision
  else
    let percentage : ℚ := (score : ℚ) / (total : ℚ) * 100
    if 80 ≤ percentage then
      Except.ok (FeedbackTemplate.outstanding subject score total percentage)
    else if 60 ≤ percentage then
      Except.ok (FeedbackTemplate.solid subject score total percentage)
    else Except.ok (FeedbackTemplate.learning subject score total percentage)

/-- The feedback string returned by `generate_feedback`: AI response text or
one of the fallback templates. -/
inductive FeedbackOut where
  | ai (text : String)
  | fallback (t : FeedbackTemplate)

/-- Model of `generate_feedback`.  With the API unavailable or the model missing the
function returns the fallback before building its prompt, so the only
division is the one inside `get_fallback_feedback`; on the `failed` and
`success` paths the prompt f-string itself computes `score/total` first.
When `total = 0` the ZeroDivisionError is re-raised by the second
`get_fallback_feedback` call inside the `except` block and escapes. -/
def generate_feedback (api : ApiCall) (subject : String) (score total : ℤ)
    (incorrect : List Dict) : Except PyErr FeedbackOut :=
  match api with
  | ApiCall.unavailable =>
      (get_fallback_feedback subject score total).map FeedbackOut.fallback
  | ApiCall.noModel =>
      (get_fallback_feedback subject score total).map FeedbackOut.fallback
  | ApiCall.failed =>
      if total = 0 then Except.error PyErr.zeroDivision
      else (get_fallback_feedback subject score total).map FeedbackOut.fallback
  | ApiCall.success t =>
      if total = 0 then Except.error PyErr.zeroDivision
      else Except.ok (FeedbackOut.ai t)

/-- Fixed string returned by `generate_custom_content` when the status check
or the model lookup fails. -/
def aiUnavailableGeneric : String :=
  "🔴 AI service is currently unavailable. Please try again later."

/-- Fixed string returned by `generate_custom_content` when the generation
call returns no text. -/
def aiEmptyResponse : String :=
  "🔴 Sorry, I couldn\x27t generate a response. Please try again."

/-- Fixed string returned by `generate_study_plan` when the API is down. -/
def aiUnavailableStudyPlan : String :=
  "🔴 AI service unavailable. Cannot generate study plan."

/-- Fixed string returned by `predict_career` when the API is down. -/
def aiUnavailableCareer : String :=
  "🔴 AI service unavailable. Cannot generate career prediction."

/-- Model of `generate_custom_content`: fixed strings on each failure path, the
response text on success. -/
def generate_custom_content (api : ApiCall) (prompt : String) : String :=
  match api with
  | ApiCall.unavailable => aiUnavailableGeneric
  | ApiCall.noModel => aiUnavailableGeneric
  | ApiCall.failed => aiEmptyResponse
  | ApiCall.success t => t

/-- The study-plan prompt template, abbreviated to its interpolated data. -/
def studyPlanPrompt (subject level : String) (days hours : ℤ) : String :=
  "Create a comprehensive " ++ toString days ++ "-day study plan for "
    ++ subject ++ " at " ++ level ++ " level, " ++ toString hours
    ++ " hours per day."

/-- Model of `generate_study_plan`: its own fixed string when the status check fails,
otherwise it delegates to `generate_custom_content`. -/
def generate_study_plan (api : ApiCall) (subject level : String)
    (days hours : ℤ) : String :=
  match api with
  | ApiCall.unavailable => aiUnavailableStudyPlan
  | a => generate_custom_content a (studyPlanPrompt subject level days hours)

/-- The career prompt template, abbreviated to its interpolated data. -/
def careerPrompt (subject : String) (skills interests : List String) : String :=
  "Suggest detailed career paths for " ++ subject ++ " with skills "
    ++ String.intercalate ", " skills ++ " and interests "
    ++ String.intercalate ", " interests

/-- Model of `predict_career`: its own fixed string when the status check fails,
otherwise it delegates to `generate_custom_content`. -/
def predict_career (api : ApiCall) (subject : String)
    (skills interests : List String) : String :=
  match api with
  | ApiCall.unavailable => aiUnavailableCareer
  | a => generate_custom_content a (careerPrompt subject skills interests)

theorem get_fallback_feedback_ok (subject : String) (score total : ℤ)
    (ht : total ≠ 0) :
    ∃ t, get_fallback_feedback subject score total = Except.ok t := by
  unfold get_fallback_feedback
  rw [if_neg ht]
  dsimp only
  split
  · exact ⟨_, rfl⟩
  · split
    · exact ⟨_, rfl⟩
    · exact ⟨_, rfl⟩

/-- C4 (amended): whenever the generative-AI API is unavailable or its call
fails, `generate_quiz_for_subject` returns the built-in fallback questions
truncated to `num_questions`, `generate_feedback` returns the built-in
markdown feedback selected by the score percentage with thresholds 80 and
60 provided `total ≠ 0`, and `generate_study_plan` and `predict_career`
return fixed unavailability strings; under these hypotheses none of the
four propagates an exception.  The hypothesis `total ≠ 0` is needed: when
`total = 0` the fallback feedback itself divides by zero and the exception
escapes `generate_feedback`, see the counterexample. -/
theorem c4_fallbacks_amended (parse : String → List QuizQ) (api : ApiCall)
    (subject level : String) (numQuestions score total days hours : ℤ)
    (incorrect : List Dict) (skills interests : List String)
    (hapi : apiDown api = true) (ht : total ≠ 0) :
    generate_quiz_for_subject parse api subject numQuestions
      = pySlice numQuestions fallbackQuestions ∧
    (0 ≤ numQuestions →
      generate_quiz_for_subject parse api subject numQuestions
        = fallbackQuestions.take numQuestions.toNat) ∧
    generate_feedback api subject score total incorrect
      = (get_fallback_feedback subject score total).map FeedbackOut.fallback ∧
    (∃ t, generate_feedback api subject score total incorrect
        = Except.ok (FeedbackOut.fallback t)) ∧
    (80 ≤ (score : ℚ) / (total : ℚ) * 100 →
      generate_feedback api subject score total incorrect
        = Except.ok (FeedbackOut.fallback (FeedbackTemplate.outstanding
            subject score total ((score : ℚ) / (total : ℚ) * 100)))) ∧
    generate_study_plan api subject level days hours
      ∈ [aiUnavailableStudyPlan, aiUnavailableGeneric, aiEmptyResponse] ∧
    predict_career api subject skills interests
      ∈ [aiUnavailableCareer, aiUnavailableGeneric, aiEmptyResponse] := by
  have hfb : ∀ t2, get_fallback_feedback subject score total = Except.ok t2 →
      (get_fallback_feedback subject score total).map FeedbackOut.fallback
        = Except.ok (FeedbackOut.fallback t2) := by
    intro t2 h2
    rw [h2]
    rfl
  have h80 : 80 ≤ (score : ℚ) / (total : ℚ) * 100 →
      get_fallback_feedback subject score total
        = Except.ok (FeedbackTemplate.outstanding subject score total
            ((score : ℚ) / (total : ℚ) * 100)) := by
    intro hp
    unfold get_fallback_feedback
    rw [if_neg ht]
    dsimp only
    rw [if_pos hp]
  obtain ⟨t0, ht0⟩ := get_fallback_feedback_ok subject score total ht
  cases api with
  | success t => simp [apiDown] at hapi
  | unavailable =>
    refine ⟨rfl, ?_, rfl, ⟨t0, hfb t0 ht0⟩, ?_, ?_, ?_⟩
    · intro hn
      simp [generate_quiz_for_subject, pySlice, hn]
    · intro hp
      show (get_fallback_feedback subject score total).map FeedbackOut.fallback = _
      rw [h80 hp]
      rfl
    · simp [generate_study_plan]
    · simp [predict_career]
  | noModel =>
    refine ⟨rfl, ?_, rfl, ⟨t0, hfb t0 ht0⟩, ?_, ?_, ?_⟩
    · intro hn
      simp [generate_quiz_for_subject, pySlice, hn]
    · intro hp
      show (get_fallback_feedback subject score total).map FeedbackOut.fallback = _
      rw [h80 hp]
      rfl
    · simp [generate_study_plan, generate_custom_content]
    · simp [predict_career, generate_custom_content]
  | failed =>
    have hgf : generate_feedback ApiCall.failed subject score total incorrect
        = (get_fallback_feedback subject score total).map FeedbackOut.fallback := by
      show (if total = 0 then _ else _) = _
      rw [if_neg ht]
    refine ⟨rfl, ?_, hgf, ⟨t0, by rw [hgf]; exact hfb t0 ht0⟩, ?_, ?_, ?_⟩
    · intro hn
      simp [generate_quiz_for_subject, pySlice, hn]
    · intro hp
      rw [hgf, h80 hp]
      rfl
    · simp [generate_study_plan, generate_custom_content]
    · simp [predict_career, generate_custom_content]

/-- Witness for C4: the API is unavailable and a quiz of 3 questions,
a 4-out-of-5 feedback, a study plan and a career prediction are requested. -/
theorem c4_fallbacks_amended_witness :
    generate_quiz_for_subject (fun _ => []) ApiCall.unavailable "Data Structures" 3
      = pySlice 3 fallbackQuestions ∧
    (0 ≤ (3:ℤ) →
      generate_quiz_for_subject (fun _ => []) ApiCall.unavailable "Data Structures" 3
        = fallbackQuestions.take (3:ℤ).toNat) ∧
    generate_feedback ApiCall.unavailable "Data Structures" 4 5 []
      = (get_fallback_feedback "Data Structures" 4 5).map FeedbackOut.fallback ∧
    (∃ t, generate_feedback ApiCall.unavailable "Data Structures" 4 5 []
        = Except.ok (FeedbackOut.fallback t)) ∧
    (80 ≤ ((4:ℤ) : ℚ) / ((5:ℤ) : ℚ) * 100 →
      generate_feedback ApiCall.unavailable "Data Structures" 4 5 []
        = Except.ok (FeedbackOut.fallback (FeedbackTemplate.outstanding
            "Data Structures" 4 5 (((4:ℤ) : ℚ) / ((5:ℤ) : ℚ) * 100)))) ∧
    generate_study_plan ApiCall.unavailable "Data Structures" "beginner" 7 2
      ∈ [aiUnavailableStudyPlan, aiUnavailableGeneric, aiEmptyResponse] ∧
    predict_career ApiCall.unavailable "Data Structures" [] []
      ∈ [aiUnavailableCareer, aiUnavailableGeneric, aiEmptyResponse] :=
  c4_fallbacks_amended (fun _ => []) ApiCall.unavailable "Data Structures" "beginner"
    3 4 5 7 2 [] [] [] (by decide) (by decide)

/-- Counterexample for C4 as frozen: with the API unavailable and a quiz
total of 0 the fallback feedback divides by zero, so `generate_feedback`
raises instead of returning fallback text. -/
theorem c4_counterexample :
    generate_feedback ApiCall.unavailable "Data Structures" 0 0 []
      = Except.error PyErr.zeroDivision ∧
    ¬ ∃ r, generate_feedback ApiCall.unavailable "Data Structures" 0 0 []
        = Except.ok r := by
  have h : generate_feedback ApiCall.unavailable "Data Structures" 0 0 []
      = Except.error PyErr.zeroDivision := rfl
  refine ⟨h, ?_⟩
  rintro ⟨r, hr⟩
  rw [h] at hr
  simp at hr

/-- A Firestore document: a dictionary of fields. -/
abbrev Doc := Dict

/-- The Firestore state touched by firebase_helper: the keyed collections
`students`, `placement_officers` and `quiz_questions`, and the
auto-id collection `quiz_results`. -/
structure Firestore where
  students : List (String × Doc)
  officers : List (String × Doc)
  quiz_questions : List (String × Doc)
  quiz_results : List Doc

/-- Field-level merge of `document(...).set(data, merge=True)` on an
existing document: fields of `newd` win, the remaining fields of `old`
are kept.  This models the documented Firestore merge semantics of the
external client. -/
def mergeDoc (old newd : Doc) : Doc :=
  newd ++ old.filter (fun kv => (alistGet newd kv.1).isNone)

/-- Model of `set(data, merge=True)` on a keyed collection: merge into the existing
document, or create the document from `data` alone. -/
def upsertMerge : List (String × Doc) → String → Doc → List (String × Doc)
  | [], key, data => [(key, data)]
  | (k, od) :: rest, key, data =>
    if k = key then (k, mergeDoc od data) :: rest
    else (k, od) :: upsertMerge rest key data

/-- Plain keyed insert of `document(qid).set(question_doc)` (no merge). -/
def upsertSet : List (String × Doc) → String → Doc → List (String × Doc)
  | [], key, data => [(key, data)]
  | (k, od) :: rest, key, data =>
    if k = key then (k, data) :: rest
    else (k, od) :: upsertSet rest key data

/-- Python dict assignment `d[k] = v`: replace the binding or append it. -/
def dictSet : Doc → String → PyVal → Doc
  | [], k, v => [(k, v)]
  | (k1, v1) :: rest, k, v =>
    if k1 = k then (k1, v) :: rest else (k1, v1) :: dictSet rest k v

/-- The UTC timestamp strings `save_quiz_result` derives from
`datetime.utcnow()`. -/
structure NowInfo where
  timestamp : String
  date : String
  week : String
  month : String

/-- Model of `save_student_data`: merge-write the profile, `False` when the database
is uninitialised (the `_db.collection` attribute error is caught) or the
client raises (`fail`).  Every code path is covered by the function's
`try/except`, so the embedding is a total function. -/
def save_student_data (db : Option Firestore) (fail : Bool) (email : String)
    (data : Doc) : Bool × Option Firestore :=
  match db with
  | none => (false, none)
  | some s =>
    if fail then (false, some s)
    else (true, some { s with students := upsertMerge s.students email data })

/-- Model of `save_quiz_question`: store the generated question under a fresh uuid
(passed in as `qid`); `False` on any failure. -/
def save_quiz_question (db : Option Firestore) (fail : Bool) (qid : String)
    (qdoc : Doc) : Bool × Option Firestore :=
  match db with
  | none => (false, none)
  | some s =>
    if fail then (false, some s)
    else (true, some { s with quiz_questions := upsertSet s.quiz_questions qid qdoc })

/-- The payload dictionary built by `save_quiz_result`. -/
def quizResultPayload (email subject : String) (score total : ℤ) (details : Doc)
    (now : NowInfo) : Doc :=
  [("email", PyVal.str email),
   ("subject", PyVal.str subject),
   ("score", PyVal.num (score : ℚ)),
   ("total", PyVal.num (total : ℚ)),
   ("percentage", PyVal.num ((score : ℚ) / (total : ℚ) * 100)),
   ("details", PyVal.dict details),
   ("timestamp", PyVal.str now.timestamp),
   ("date", PyVal.str now.date),
   ("week", PyVal.str now.week),
   ("month", PyVal.str now.month)]

/-- Model of `save_quiz_result`: builds the payload (the percentage raises
ZeroDivisionError when `total = 0`, caught by the `except`) and appends it
to `quiz_results`; `False` on any failure. -/
def save_quiz_result (db : Option Firestore) (fail : Bool) (email subject : String)
    (score total : ℤ) (details : Doc) (now : NowInfo) : Bool × Option Firestore :=
  match db with
  | none => (false, none)
  | some s =>
    if total = 0 then (false, some s)
    else if fail then (false, some s)
    else (true, some { s with quiz_results :=
      s.quiz_results ++ [quizResultPayload email subject score total details now] })

/-- Model of `fetch_all_students`: all student documents, `[]` on any failure. -/
def fetch_all_students (db : Option Firestore) (fail : Bool) : List Doc :=
  match db with
  | none => []
  | some s => if fail then [] else s.students.map Prod.snd

/-- Model of `get_student`: the student document, `None` when absent or on failure. -/
def get_student (db : Option Firestore) (fail : Bool) (email : String) :
    Option Doc :=
  match db with
  | none => none
  | some s => if fail then none else alistGet s.students email

/-- The timestamp sort key `x.get('timestamp', '')` of
`fetch_student_quiz_results`. -/
def tsOf (d : Doc) : String :=
  match alistGet d "timestamp" with
  | some (PyVal.str t) => t
  | _ => ""

/-- Model of `fetch_student_quiz_results`: the results whose `email` field equals the
student's email, newest timestamp first; `[]` on any failure. -/
def fetch_student_quiz_results (db : Option Firestore) (fail : Bool)
    (email : String) : List Doc :=
  match db with
  | none => []
  | some s =>
    if fail then []
    else
      (s.quiz_results.filter (fun d =>
        match alistGet d "email" with
        | some (PyVal.str e) => e = email
        | _ => false)).insertionSort (fun a b => tsOf b ≤ tsOf a)

/-- Model of `fetch_quiz_results`: every quiz result, `[]` on any failure. -/
def fetch_quiz_results (db : Option Firestore) (fail : Bool) : List Doc :=
  match db with
  | none => []
  | some s => if fail then [] else s.quiz_results

/-- Model of `login_user`: the student document with role Student, else the officer
document with role Placement Officer, else `None`; `None` on any failure. -/
def login_user (db : Option Firestore) (fail : Bool) (email : String) :
    Option Doc :=
  match db with
  | none => none
  | some s =>
    if fail then none
    else
      match alistGet s.students email with
      | some d => some (dictSet d "role" (PyVal.str "Student"))
      | none =>
        match alistGet s.officers email with
        | some d => some (dictSet d "role" (PyVal.str "Placement Officer"))
        | none => none

/-- C7: when the underlying database client raises, every persistence helper
returns its fallback value instead of propagating the error: the save
helpers return False, the fetch helpers return the empty list, and
`get_student` and `login_user` return None.  Each embedded helper is a
total function because every Python path is inside `try/except`. -/
theorem c7_db_fallbacks (db : Option Firestore) (email subject qid : String)
    (data qdoc details : Doc) (score total : ℤ) (now : NowInfo) :
    (save_student_data db true email data).1 = false ∧
    (save_quiz_question db true qid qdoc).1 = false ∧
    (save_quiz_result db true email subject score total details now).1 = false ∧
    fetch_all_students db true = [] ∧
    fetch_student_quiz_results db true email = [] ∧
    fetch_quiz_results db true = [] ∧
    get_student db true email = none ∧
    login_user db true email = none := by
  cases db with
  | none =>
    exact ⟨rfl, rfl, rfl, rfl, rfl, rfl, rfl, rfl⟩
  | some s =>
    refine ⟨rfl, rfl, ?_, rfl, rfl, rfl, rfl, rfl⟩
    by_cases hts : total = 0
    · simp [save_quiz_result, hts]
    · simp [save_quiz_result, hts]

theorem alistGet_append {α : Type} (a b : List (String × α)) (k : String) :
    alistGet (a ++ b) k
      = match alistGet a k with
        | some v => some v
        | none => alistGet b k := by
  induction a with
  | nil => rfl
  | cons x rest ih =>
    obtain ⟨k1, v⟩ := x
    by_cases h : k1 = k
    · simp [alistGet, h]
    · simp [alistGet, h, ih]

theorem alistGet_filter {α : Type} (p : String × α → Bool)
    (l : List (String × α)) (k : String) (h : ∀ v, p (k, v) = true) :
    alistGet (l.filter p) k = alistGet l k := by
  induction l with
  | nil => rfl
  | cons x rest ih =>
    obtain ⟨k1, v⟩ := x
    rw [List.filter_cons]
    by_cases hk : k1 = k
    · subst hk
      rw [if_pos (h v)]
      simp [alistGet]
    · by_cases hp : p (k1, v) = true
      · simp [hp, alistGet, hk, ih]
      · simp [hp, alistGet, hk, ih]

theorem mergeDoc_get (old newd : Doc) (k : String) :
    alistGet (mergeDoc old newd) k
      = match alistGet newd k with
        | some v => some v
        | none => alistGet old k := by
  unfold mergeDoc
  rw [alistGet_append]
  cases hn : alistGet newd k with
  | some v => rfl
  | none =>
    exact alistGet_filter _ _ _ (fun v => by simp [hn])

theorem upsertMerge_get_same (l : List (String × Doc)) (key : String) (data : Doc) :
    alistGet (upsertMerge l key data) key
      = some (match alistGet l key with
              | some od => mergeDoc od data
              | none => data) := by
  induction l with
  | nil => simp [upsertMerge, alistGet]
  | cons x rest ih =>
    obtain ⟨k, od⟩ := x
    by_cases h : k = key
    · subst h
      simp [upsertMerge, alistGet]
    · simp [upsertMerge, alistGet, h, ih]

theorem upsertMerge_get_other (l : List (String × Doc)) (key : String)
    (data : Doc) (e2 : String) (h : e2 ≠ key) :
    alistGet (upsertMerge l key data) e2 = alistGet l e2 := by
  induction l with
  | nil =>
    simp [upsertMerge, alistGet, Ne.symm h]
  | cons x rest ih =>
    obtain ⟨k, od⟩ := x
    by_cases hk : k = key
    · subst hk
      simp [upsertMerge, alistGet, Ne.symm h, ih]
    · simp [upsertMerge, alistGet, hk, ih]

/-- C8: `save_student_data` has merge semantics on success: the returned
flag is True, fields named in the update hold the update's values, fields
of an existing stored document not named in the update are unchanged, a
missing document is created holding exactly the update's fields, and other
students' documents are untouched. -/
theorem c8_save_student_merge (s : Firestore) (email : String) (data : Doc) :
    (save_student_data (some s) false email data).1 = true ∧
    ∃ s2, (save_student_data (some s) false email data).2 = some s2 ∧
      ∃ nd, alistGet s2.students email = some nd ∧
        (∀ k v, alistGet data k = some v → alistGet nd k = some v) ∧
        (∀ k, alistGet data k = none →
          alistGet nd k = (match alistGet s.students email with
                           | some old => alistGet old k
                           | none => none)) ∧
        (∀ e2, e2 ≠ email → alistGet s2.students e2 = alistGet s.students e2) := by
  refine ⟨rfl, ⟨_, rfl, ?_⟩⟩
  refine ⟨_, upsertMerge_get_same s.students email data, ?_, ?_, ?_⟩
  · intro k v hkv
    cases ho : alistGet s.students email with
    | some old =>
      dsimp only
      rw [mergeDoc_get, hkv]
    | none =>
      dsimp only
      exact hkv
  · intro k hk
    cases ho : alistGet s.students email with
    | some old =>
      dsimp only
      rw [mergeDoc_get, hk]
    | none =>
      dsimp only
      exact hk
  · intro e2 he2
    exact upsertMerge_get_other s.students email data e2 he2

/-- Witness for C8: merging a cgpa update into an existing profile. -/
theorem c8_save_student_merge_witness :
    let s0 : Firestore :=
      { students := [("a@b.com", [("name", PyVal.str "A"), ("cgpa", PyVal.num 7)])],
        officers := [], quiz_questions := [], quiz_results := [] }
    let data0 : Doc := [("cgpa", PyVal.num 9)]
    (save_student_data (some s0) false "a@b.com" data0).1 = true ∧
    ∃ s2, (save_student_data (some s0) false "a@b.com" data0).2 = some s2 ∧
      ∃ nd, alistGet s2.students "a@b.com" = some nd ∧
        (∀ k v, alistGet data0 k = some v → alistGet nd k = some v) ∧
        (∀ k, alistGet data0 k = none →
          alistGet nd k = (match alistGet s0.students "a@b.com" with
                           | some old => alistGet old k
                           | none => none)) ∧
        (∀ e2, e2 ≠ "a@b.com" → alistGet s2.students e2 = alistGet s0.students e2) :=
  c8_save_student_merge _ "a@b.com" _

/-- The numpy global pseudo-random generator: the seed last planted and the
position in the draw stream. -/
structure RNG where
  seed : ℕ
  pos : ℕ

/-- Model of `np.random.seed(k)`: resets the global generator, discarding its
previous state. -/
def npSeed (k : ℕ) (_r : RNG) : RNG :=
  { seed := k, pos := 0 }

/-- The raw draw streams of the generator, one per distribution family,
indexed by seed and position.  The concrete numerical generator is
abstracted: all theorems hold for every choice of streams.  Poisson draws
are nonnegative integers by type; standard-normal draws are unconstrained. -/
structure Streams where
  z : ℕ → ℕ → ℚ
  p : ℕ → ℕ → ℕ
  i : ℕ → ℕ → ℕ

/-- numpy `clip(lo, hi)` on one value. -/
def clipQ (lo hi x : ℚ) : ℚ :=
  max lo (min hi x)

/-- The year labels drawn by `np.random.choice`. -/
def yearList : List String :=
  ["1st Year", "2nd Year", "3rd Year", "4th Year"]

/-- The year weight map of the synthetic employability score
`{'1st Year': 2, '2nd Year': 4, '3rd Year': 7, '4th Year': 10}`; a missing
key would give a pandas NaN, but every generated year is in the map. -/
def yearWeight (y : String) : ℚ :=
  if y = "1st Year" then 2
  else if y = "2nd Year" then 4
  else if y = "3rd Year" then 7
  else if y = "4th Year" then 10
  else 0

/-- A generated row before the employability-score column is added. -/
structure RowBase where
  cgpa : ℚ
  internships : ℕ
  projects : ℕ
  certification_count : ℕ
  communication_skills : ℕ
  year : String
  extracurricular_score : ℕ

/-- Row `i` of the base columns of `generate_synthetic_data` for `n` samples
drawn after `np.random.seed(42)`.  The column draws consume stream
positions in source order: normal cgpa, three poisson columns, randint
communication, year choice, randint extracurricular.  `randint(lo, hi)`
is the draw reduced into `[lo, hi)`; `choice` indexes the year list. -/
def rowBase (S : Streams) (n i : ℕ) : RowBase :=
  { cgpa := clipQ 5 10 (7.5 + 1.2 * S.z 42 i)
    internships := min 5 (S.p 42 (n + i))
    projects := min 10 (S.p 42 (2 * n + i))
    certification_count := min 8 (S.p 42 (3 * n + i))
    communication_skills := 4 + S.i 42 (4 * n + i) % 7
    year := yearList.getD (S.i 42 (5 * n + i) % 4) "1st Year"
    extracurricular_score := S.i 42 (6 * n + i) % 11 }

/-- The weighted raw employability score of one row, before min-max
normalisation. -/
def rawScore (b : RowBase) : ℚ :=
  b.cgpa * 2.5 + (b.internships : ℚ) * 8 + (b.projects : ℚ) * 3
    + (b.certification_count : ℚ) * 4 + (b.communication_skills : ℚ) * 3
    + yearWeight b.year + (b.extracurricular_score : ℚ) * 2

/-- All raw scores of a generation run. -/
def rawScores (S : Streams) (n : ℕ) : List ℚ :=
  (List.range n).map (fun i => rawScore (rowBase S n i))

/-- The minimum of a score column (pandas `min`), 0 on an empty column. -/
def listMinD : List ℚ → ℚ
  | [] => 0
  | h :: t => t.foldl min h

/-- The maximum of a score column (pandas `max`), 0 on an empty column. -/
def listMaxD : List ℚ → ℚ
  | [] => 0
  | h :: t => t.foldl max h

/-- A generated row with its employability-score column.  `none` stands for
the float NaN that the zero-width min-max normalisation `0/0` produces. -/
structure Row extends RowBase where
  employability_score : Option ℚ

/-- Row `i` of the finished DataFrame: the raw score is min-max normalised
to 0-100 (NaN when the column max equals the column min), Gaussian noise
`normal(0, 5)` is added, and the result is clipped to [0, 100]; NaN
propagates through the noise and the clip. -/
def finalRow (S : Streams) (n i : ℕ) : Row :=
  let b := rowBase S n i
  let mn := listMinD (rawScores S n)
  let mx := listMaxD (rawScores S n)
  { b with employability_score :=
      if mx = mn then none
      else some (clipQ 0 100
        ((rawScore b - mn) / (mx - mn) * 100 + (0 + 5 * S.z 42 (7 * n + i)))) }

/-- Model of `EmployabilityPredictor.generate_synthetic_data`: reseeds the global
generator with 42 and builds the `n`-row DataFrame; the final generator
state reflects the consumed draws. -/
def generate_synthetic_data (S : Streams) (r0 : RNG) (n : ℕ) : List Row × RNG :=
  let r1 := npSeed 42 r0
  ((List.range n).map (finalRow S n), { seed := r1.seed, pos := r1.pos + 8 * n })

/-- Model of `LabelEncoder.transform` on a fitted class list: the index of the label
in the sorted class list. -/
def labelIdx (classes : List String) (y : String) : ℚ :=
  (classes.indexOf y : ℕ)

/-- The fitted classes of `LabelEncoder.fit_transform` on the year column:
the sorted distinct labels. -/
def fitClasses (rows : List Row) : List String :=
  ((rows.map (fun r => r.year)).dedup).insertionSort (fun a b => a ≤ b)

/-- The seven engineered features of one training row, in the order of
`feature_names`. -/
def featuresOfRow (classes : List String) (b : RowBase) : List ℚ :=
  [b.cgpa, (b.internships : ℚ), (b.projects : ℚ), (b.certification_count : ℚ),
   (b.communication_skills : ℚ), labelIdx classes b.year,
   (b.extracurricular_score : ℚ)]

/-- Model of `EmployabilityPredictor.preprocess_data`: fits the year label encoder,
selects the seven features as `X` and the employability score as `y`. -/
def preprocess_data (rows : List Row) :
    List String × List (List ℚ) × List (Option ℚ) :=
  let classes := fitClasses rows
  (classes, rows.map (fun r => featuresOfRow classes r.toRowBase),
   rows.map Row.employability_score)

/-- The predictor's mutable state: the trained regression model, the fitted
scaler parameters (kept as the fitted design matrix), the fitted year
classes, and the SHAP explainer (abstracted as the model it wraps). -/
structure PredictorState where
  model : Option (List ℚ → ℚ)
  scalerFit : Option (List (List ℚ))
  yearClasses : List String
  explainer : Option (List ℚ → ℚ)

/-- The stages of `train_model`, in execution order. -/
inductive Stage where
  | generateData
  | preprocessData
  | scaleFeatures
  | trainForest
  | buildExplainer
deriving DecidableEq

/-- Model of `EmployabilityPredictor.train_model`: generates synthetic data, encodes
and selects features, fits the scaler and scales `X`, trains the forest,
then creates the explainer from the trained model; alongside the new state
it returns the trace of stages in the order they ran.  The numerical
standard scaler is the abstract `transform` applied to fitted parameters,
and `train_test_split` plus `RandomForestRegressor.fit` are folded into the
abstract `rfFit`. -/
def train_model (transform : Option (List (List ℚ)) → List ℚ → List ℚ)
    (rfFit : List (List ℚ) → List (Option ℚ) → (List ℚ → ℚ))
    (S : Streams) (r0 : RNG) (n : ℕ) : PredictorState × List Stage :=
  let df := (generate_synthetic_data S r0 n).1
  let pre := preprocess_data df
  let fitted := some pre.2.1
  let xScaled := pre.2.1.map (transform fitted)
  let m := rfFit xScaled pre.2.2
  ({ model := some m, scalerFit := fitted, yearClasses := pre.1,
     explainer := some m },
   [Stage.generateData, Stage.preprocessData, Stage.scaleFeatures,
    Stage.trainForest, Stage.buildExplainer])

/-- Model of `EmployabilityPredictor.extract_features_from_student`: a total function
of the student dictionary, with the source defaults, the certification
count as a list length, year encoding 0 for labels outside the fitted
classes, and the extracurricular proxy `min(10, certs + internships)`. -/
def extract_features_from_student (classes : List String) (d : Dict) : List ℚ :=
  let cgpa := getNum d "cgpa" 6.5
  let internships := getNum d "internships" 0
  let projects := getNum d "projects" 0
  let certification_count : ℚ := ((getList d "certifications" []).length : ℚ)
  let communication_skills := getNum d "communication" 6
  let year := getStr d "year" "1st Year"
  let year_encoded : ℚ := if year ∈ classes then labelIdx classes year else 0
  let extracurricular_score := min 10 (certification_count + internships)
  [cgpa, internships, projects, certification_count, communication_skills,
   year_encoded, extracurricular_score]

/-- Model of `EmployabilityPredictor.predict`: raises ValueError without a model;
otherwise scales the extracted features with the fitted scaler, applies the
model and clamps the output with `max(0, min(100, prediction))`. -/
def predict (transform : Option (List (List ℚ)) → List ℚ → List ℚ)
    (st : PredictorState) (d : Dict) : Except PyErr ℚ :=
  match st.model with
  | none => Except.error PyErr.valueError
  | some m =>
    Except.ok (max 0 (min 100
      (m (transform st.scalerFit (extract_features_from_student st.yearClasses d)))))

theorem clipQ_bounds (lo hi x : ℚ) (h : lo ≤ hi) :
    lo ≤ clipQ lo hi x ∧ clipQ lo hi x ≤ hi :=
  ⟨le_max_left _ _, max_le h (min_le_left _ _)⟩

/-- C1: `train_model` runs generation, encoding and feature selection,
scaler fitting and scaling, forest training, and explainer creation in
that order; the resulting state holds the scaler fitted on the training
features and the explainer built from the trained model, and `predict`
applies that same fitted scaler to the extracted feature vector before
calling the trained model and clamping. -/
theorem c1_pipeline_order
    (transform : Option (List (List ℚ)) → List ℚ → List ℚ)
    (rfFit : List (List ℚ) → List (Option ℚ) → (List ℚ → ℚ))
    (S : Streams) (r0 : RNG) (n : ℕ) :
    (train_model transform rfFit S r0 n).2
      = [Stage.generateData, Stage.preprocessData, Stage.scaleFeatures,
         Stage.trainForest, Stage.buildExplainer] ∧
    (let st := (train_model transform rfFit S r0 n).1
     let pre := preprocess_data (generate_synthetic_data S r0 n).1
     let m := rfFit (pre.2.1.map (transform (some pre.2.1))) pre.2.2
     st.scalerFit = some pre.2.1 ∧
     st.yearClasses = pre.1 ∧
     st.model = some m ∧
     st.explainer = some m ∧
     ∀ d, predict transform st d
       = Except.ok (max 0 (min 100 (m (transform st.scalerFit
           (extract_features_from_student st.yearClasses d)))))) :=
  ⟨rfl, rfl, rfl, rfl, rfl, fun _ => rfl⟩

/-- C10: `generate_synthetic_data` reseeds the generator with 42 on every
call, so its result does not depend on the incoming generator state, and
`train_model` therefore always trains on the same dataset for a fixed
sample count. -/
theorem c10_seed_determinism
    (transform : Option (List (List ℚ)) → List ℚ → List ℚ)
    (rfFit : List (List ℚ) → List (Option ℚ) → (List ℚ → ℚ))
    (S : Streams) (r1 r2 : RNG) (n : ℕ) :
    generate_synthetic_data S r1 n = generate_synthetic_data S r2 n ∧
    train_model transform rfFit S r1 n = train_model transform rfFit S r2 n :=
  ⟨rfl, rfl⟩

/-- C2 (amended): every generated row unconditionally respects the intended
column bounds, and, provided the raw weighted scores are not all equal,
its employability score is a genuine number in [0, 100].  The proviso on
the score conjunct alone is needed: when the column maximum equals the
column minimum the min-max normalisation divides zero by zero and the
whole score column is NaN, see the counterexample with a single sample. -/
theorem c2_synthetic_bounds_amended (S : Streams) (r0 : RNG) (n : ℕ) :
    ∀ r ∈ (generate_synthetic_data S r0 n).1,
      5 ≤ r.cgpa ∧ r.cgpa ≤ 10 ∧
      r.internships ≤ 5 ∧ r.projects ≤ 10 ∧ r.certification_count ≤ 8 ∧
      4 ≤ r.communication_skills ∧ r.communication_skills ≤ 10 ∧
      r.extracurricular_score ≤ 10 ∧
      (listMinD (rawScores S n) < listMaxD (rawScores S n) →
        ∃ q, r.employability_score = some q ∧ 0 ≤ q ∧ q ≤ 100) := by
  intro r hr
  simp only [generate_synthetic_data, List.mem_map, List.mem_range] at hr
  obtain ⟨i, _, rfl⟩ := hr
  have hbase : (finalRow S n i).toRowBase = rowBase S n i := rfl
  have hcg := clipQ_bounds 5 10 (7.5 + 1.2 * S.z 42 i) (by norm_num)
  have hcomm : S.i 42 (4 * n + i) % 7 < 7 := Nat.mod_lt _ (by norm_num)
  have hext : S.i 42 (6 * n + i) % 11 < 11 := Nat.mod_lt _ (by norm_num)
  have hcomm2 : (finalRow S n i).communication_skills
      = 4 + S.i 42 (4 * n + i) % 7 := rfl
  have hext2 : (finalRow S n i).extracurricular_score
      = S.i 42 (6 * n + i) % 11 := rfl
  refine ⟨hcg.1, hcg.2, Nat.min_le_left _ _, Nat.min_le_left _ _,
    Nat.min_le_left _ _, Nat.le_add_right _ _, by rw [hcomm2]; omega,
    by rw [hext2]; omega, ?_⟩
  intro h
  have hscore : (finalRow S n i).employability_score
      = if listMaxD (rawScores S n) = listMinD (rawScores S n) then none
        else some (clipQ 0 100
          ((rawScore (rowBase S n i) - listMinD (rawScores S n))
              / (listMaxD (rawScores S n) - listMinD (rawScores S n)) * 100
            + (0 + 5 * S.z 42 (7 * n + i)))) := rfl
  rw [hscore, if_neg (ne_of_gt h)]
  exact ⟨_, rfl, (clipQ_bounds 0 100 _ (by norm_num)).1,
    (clipQ_bounds 0 100 _ (by norm_num)).2⟩

/-- Streams for the C2 witness: increasing standard-normal draws, so the
two raw scores differ. -/
def witStreams : Streams :=
  { z := fun _ i => (i : ℚ), p := fun _ _ => 0, i := fun _ _ => 0 }

/-- Witness for C2 with two samples whose raw scores differ, instantiated
at the first generated row. -/
theorem c2_synthetic_bounds_amended_witness :
    5 ≤ (finalRow witStreams 2 0).cgpa ∧ (finalRow witStreams 2 0).cgpa ≤ 10 ∧
    (finalRow witStreams 2 0).internships ≤ 5 ∧
    (finalRow witStreams 2 0).projects ≤ 10 ∧
    (finalRow witStreams 2 0).certification_count ≤ 8 ∧
    4 ≤ (finalRow witStreams 2 0).communication_skills ∧
    (finalRow witStreams 2 0).communication_skills ≤ 10 ∧
    (finalRow witStreams 2 0).extracurricular_score ≤ 10 ∧
    ∃ q, (finalRow witStreams 2 0).employability_score = some q ∧ 0 ≤ q ∧ q ≤ 100 := by
  have hlt : listMinD (rawScores witStreams 2) < listMaxD (rawScores witStreams 2) := by
    have h2 : listMinD (rawScores witStreams 2)
        = min (rawScore (rowBase witStreams 2 0)) (rawScore (rowBase witStreams 2 1)) := rfl
    have h3 : listMaxD (rawScores witStreams 2)
        = max (rawScore (rowBase witStreams 2 0)) (rawScore (rowBase witStreams 2 1)) := rfl
    have h4 : rawScore (rowBase witStreams 2 0)
        = clipQ 5 10 (7.5 + 1.2 * ((0 : ℕ) : ℚ)) * 2.5 + ((0 : ℕ) : ℚ) * 8
          + ((0 : ℕ) : ℚ) * 3 + ((0 : ℕ) : ℚ) * 4 + ((4 : ℕ) : ℚ) * 3
          + yearWeight "1st Year" + ((0 : ℕ) : ℚ) * 2 := rfl
    have h5 : rawScore (rowBase witStreams 2 1)
        = clipQ 5 10 (7.5 + 1.2 * ((1 : ℕ) : ℚ)) * 2.5 + ((0 : ℕ) : ℚ) * 8
          + ((0 : ℕ) : ℚ) * 3 + ((0 : ℕ) : ℚ) * 4 + ((4 : ℕ) : ℚ) * 3
          + yearWeight "1st Year" + ((0 : ℕ) : ℚ) * 2 := rfl
    have hyw : yearWeight "1st Year" = 2 := rfl
    rw [h2, h3, h4, h5, hyw]
    norm_num [clipQ, min_def, max_def]
  obtain ⟨b1, b2, b3, b4, b5, b6, b7, b8, hsc⟩ :=
    c2_synthetic_bounds_amended witStreams ⟨0, 0⟩ 2 (finalRow witStreams 2 0)
      (by
        rw [show (generate_synthetic_data witStreams ⟨0, 0⟩ 2).1
            = [finalRow witStreams 2 0, finalRow witStreams 2 1] from rfl]
        exact List.mem_cons_self _ _)
  exact ⟨b1, b2, b3, b4, b5, b6, b7, b8, hsc hlt⟩

/-- Streams that are identically zero, for the C2 counterexample. -/
def zeroStreams : Streams :=
  { z := fun _ _ => 0, p := fun _ _ => 0, i := fun _ _ => 0 }

/-- Counterexample for C2 as frozen: with a single sample the min-max
normalisation has zero width, the employability score of the only row is
NaN, and the claimed bound 0 ≤ score ≤ 100 fails. -/
theorem c2_counterexample :
    ¬ (∀ r ∈ (generate_synthetic_data zeroStreams ⟨0, 0⟩ 1).1,
        ∃ q, r.employability_score = some q ∧ 0 ≤ q ∧ q ≤ 100) := by
  intro hAll
  have hm : (generate_synthetic_data zeroStreams ⟨0, 0⟩ 1).1
      = [finalRow zeroStreams 1 0] := rfl
  have hr := hAll (finalRow zeroStreams 1 0) (by rw [hm]; exact List.mem_singleton_self _)
  obtain ⟨q, hq, _, _⟩ := hr
  have hmxmn : listMaxD (rawScores zeroStreams 1) = listMinD (rawScores zeroStreams 1) := rfl
  have hscore : (finalRow zeroStreams 1 0).employability_score
      = if listMaxD (rawScores zeroStreams 1) = listMinD (rawScores zeroStreams 1) then none
        else some (clipQ 0 100
          ((rawScore (rowBase zeroStreams 1 0) - listMinD (rawScores zeroStreams 1))
              / (listMaxD (rawScores zeroStreams 1) - listMinD (rawScores zeroStreams 1)) * 100
            + (0 + 5 * zeroStreams.z 42 (7 * 1 + 0)))) := rfl
  rw [hscore, if_pos hmxmn] at hq
  cases hq

/-- C3: `extract_features_from_student` is a total function of the student
dictionary and returns exactly the 7-element vector
[cgpa, internships, projects, certification_count, communication,
year_encoded, extracurricular] with the source defaults, certification
count the length of the certifications list, year encoding 0 outside the
fitted classes, and extracurricular `min(10, certs + internships)`. -/
theorem c3_extract_features (classes : List String) (d : Dict)
    (hw : wellTypedStudent d = true) :
    extract_features_from_student classes d
      = [getNum d "cgpa" 6.5, getNum d "internships" 0, getNum d "projects" 0,
         ((getList d "certifications" []).length : ℚ), getNum d "communication" 6,
         (if getStr d "year" "1st Year" ∈ classes
          then labelIdx classes (getStr d "year" "1st Year") else 0),
         min 10 (((getList d "certifications" []).length : ℚ)
           + getNum d "internships" 0)] ∧
    (extract_features_from_student classes d).length = 7 ∧
    (getStr d "year" "1st Year" ∉ classes →
      (extract_features_from_student classes d).get? 5 = some 0) := by
  have h1 : extract_features_from_student classes d
      = [getNum d "cgpa" 6.5, getNum d "internships" 0, getNum d "projects" 0,
         ((getList d "certifications" []).length : ℚ), getNum d "communication" 6,
         (if getStr d "year" "1st Year" ∈ classes
          then labelIdx classes (getStr d "year" "1st Year") else 0),
         min 10 (((getList d "certifications" []).length : ℚ)
           + getNum d "internships" 0)] := rfl
  refine ⟨h1, by rw [h1]; rfl, ?_⟩
  intro hy
  rw [h1]
  simp [List.get?_cons_succ, List.get?_cons_zero, if_neg hy]

/-- Witness for C3 at a concrete fitted encoder and student dictionary
whose year is outside the fitted classes. -/
theorem c3_extract_features_witness :
    let classes : List String := ["1st Year", "4th Year"]
    let dW : Dict := [("cgpa", PyVal.num 9), ("internships", PyVal.num 1),
      ("certifications", PyVal.list [PyVal.str "A", PyVal.str "B"]),
      ("year", PyVal.str "5th Year")]
    extract_features_from_student classes dW
      = [getNum dW "cgpa" 6.5, getNum dW "internships" 0, getNum dW "projects" 0,
         ((getList dW "certifications" []).length : ℚ), getNum dW "communication" 6,
         (if getStr dW "year" "1st Year" ∈ classes
          then labelIdx classes (getStr dW "year" "1st Year") else 0),
         min 10 (((getList dW "certifications" []).length : ℚ)
           + getNum dW "internships" 0)] ∧
    (extract_features_from_student classes dW).length = 7 ∧
    (getStr dW "year" "1st Year" ∉ classes →
      (extract_features_from_student classes dW).get? 5 = some 0) :=
  c3_extract_features _ _ (by decide)

/-- C9: `predict` raises ValueError exactly when no model is present, and
with a model present it returns the regression output clamped by
`max(0, min(100, prediction))`, hence a value in [0, 100]. -/
theorem c9_predict_clamp (transform : Option (List (List ℚ)) → List ℚ → List ℚ)
    (st : PredictorState) (d : Dict) :
    (predict transform st d = Except.error PyErr.valueError ↔ st.model = none) ∧
    (∀ m, st.model = some m → predict transform st d
        = Except.ok (max 0 (min 100 (m (transform st.scalerFit
            (extract_features_from_student st.yearClasses d)))))) ∧
    (∀ q, predict transform st d = Except.ok q → 0 ≤ q ∧ q ≤ 100) := by
  cases hm : st.model with
  | none =>
    refine ⟨by simp [predict, hm], ?_, ?_⟩
    · intro m hm2
      exact absurd hm2 (by simp)
    · intro q hq
      rw [show predict transform st d = Except.error PyErr.valueError by
        simp [predict, hm]] at hq
      cases hq
  | some m0 =>
    have hp : predict transform st d
        = Except.ok (max 0 (min 100 (m0 (transform st.scalerFit
            (extract_features_from_student st.yearClasses d))))) := by
      simp [predict, hm]
    refine ⟨?_, ?_, ?_⟩
    · rw [hp]
      simp [hm]
    · intro m hm2
      obtain rfl : m0 = m := Option.some.inj hm2
      exact hp
    · intro q hq
      rw [hp] at hq
      cases hq
      exact ⟨le_max_left _ _, max_le (by norm_num) (min_le_left _ _)⟩

/-- The identity scaler used by the C9 witness. -/
def idTransform : Option (List (List ℚ)) → List ℚ → List ℚ :=
  fun _ x => x

/-- A predictor state holding a constant model that answers 250, used by
the C9 witness to see the clamp in action. -/
def stW : PredictorState :=
  { model := some (fun _ => 250), scalerFit := some [], yearClasses := [],
    explainer := none }

/-- Witness for C9: the constant-250 model is clamped into [0, 100]. -/
theorem c9_predict_clamp_witness :
    predict idTransform stW []
      = Except.ok (max 0 (min 100 ((fun _ => (250 : ℚ))
          (idTransform stW.scalerFit
            (extract_features_from_student stW.yearClasses []))))) ∧
    (0 ≤ max 0 (min 100 ((fun _ => (250 : ℚ))
          (idTransform stW.scalerFit
            (extract_features_from_student stW.yearClasses [])))) ∧
      max 0 (min 100 ((fun _ => (250 : ℚ))
          (idTransform stW.scalerFit
            (extract_features_from_student stW.yearClasses [])))) ≤ 100) :=
  ⟨(c9_predict_clamp idTransform stW []).2.1 _ rfl,
   (c9_predict_clamp idTransform stW []).2.2 _
     ((c9_predict_clamp idTransform stW []).2.1 _ rfl)⟩

end App
